import Mathlib

/-! Verification of the generated_drivers HTTP client drivers. -/

/-- JSON values as returned by the remote APIs (shallow model of Python
objects produced by `response.json()`). -/
inductive Json where
  | null
  | bool (b : Bool)
  | num (n : Int)
  | str (s : String)
  | arr (elems : List Json)
  | obj (fields : List (String × Json))

/-- Python truthiness of a JSON value (`bool(x)`): `None`, `False`, `0`,
`""`, `[]`, `{}` are falsy. -/
def Json.truthy : Json → Bool
  | .null => false
  | .bool b => b
  | .num n => n != 0
  | .str s => s != ""
  | .arr elems => !elems.isEmpty
  | .obj fields => !fields.isEmpty

/-- Python `dict.get(k)`: value of the first binding of `k`, `None`
(here `Option.none`) when the key is absent. -/
def Json.get (fields : List (String × Json)) (k : String) : Option Json :=
  (fields.find? (fun p => p.1 == k)).map (·.2)

/-- Python `a or b` where `a` is a `dict.get` result: keeps `a`'s value
when it is present and truthy, otherwise evaluates to `b`. -/
def pyOr (a : Option Json) (b : Json) : Json :=
  match a with
  | some v => if v.truthy then v else b
  | none => b

/-! ## Response normalizers

`StripeDriver._parse_response` (src/stripe/client.py:751-809) and
`AmplitudeDriver._parse_response` (src/amplitude/client.py:792-852). -/

/-- Wrapping step at the end of `StripeDriver._parse_response`
(src/stripe/client.py:800-806): a list is returned as is, a non-`None`
value is wrapped in a singleton list, `None` becomes `[]`. -/
def stripeWrap : Json → List Json
  | .arr xs => xs
  | .null => []
  | v => [v]

/-- `StripeDriver._parse_response` applied to an already decoded JSON body
(src/stripe/client.py:783-809): direct arrays pass through; an object is
probed with `data.get("data") or data.get("items") or data.get("results")
or data.get("records") or []`; any other value yields `[]`. -/
def stripeParseBody : Json → List Json
  | .arr xs => xs
  | .obj kvs =>
      stripeWrap
        (pyOr (Json.get kvs "data")
          (pyOr (Json.get kvs "items")
            (pyOr (Json.get kvs "results")
              (pyOr (Json.get kvs "records") (.arr [])))))
  | _ => []

/-- Wrapping step at the end of `AmplitudeDriver._parse_response`
(src/amplitude/client.py:844-850): lists and dicts are returned as is,
other non-`None` values are wrapped in a singleton list, `None` falls
back to the whole body. -/
def amplitudeWrap (body : Json) : Json → Json
  | .arr xs => .arr xs
  | .obj kvs => .obj kvs
  | .null => body
  | v => .arr [v]

/-- `AmplitudeDriver._parse_response` applied to an already decoded JSON
body (src/amplitude/client.py:823-852): direct arrays pass through; an
object is probed with `data.get("root") or data.get("userData") or
data.get("code") or data.get("events_ingested") or data.get("items") or
data.get("data") or data.get("results") or data.get("Records") or
data.get("records") or data`; any other value yields `{}`. -/
def amplitudeParseBody : Json → Json
  | .arr xs => .arr xs
  | .obj kvs =>
      amplitudeWrap (.obj kvs)
        (pyOr (Json.get kvs "root")
          (pyOr (Json.get kvs "userData")
            (pyOr (Json.get kvs "code")
              (pyOr (Json.get kvs "events_ingested")
                (pyOr (Json.get kvs "items")
                  (pyOr (Json.get kvs "data")
                    (pyOr (Json.get kvs "results")
                      (pyOr (Json.get kvs "Records")
                        (pyOr (Json.get kvs "records") (.obj kvs))))))))))
  | _ => .obj []

/-- Modelled from the spec's words for the claim under scrutiny: the value
of the first candidate envelope key that is present in the body, probed in
the documented order (`data` first for Stripe). -/
def specStripeFirstCandidateKey (kvs : List (String × Json)) : Option Json :=
  ["data", "items", "results", "records"].findSome? (fun k => Json.get kvs k)

/-- Modelled from the spec's words: the extracted envelope value "wrapped
as a list". -/
def specWrapAsList : Json → List Json
  | .arr xs => xs
  | v => [v]

/-- First candidate whose value is present AND truthy, over a list of
lookup results (the behaviour the `or` chains actually implement). -/
def specFirstTruthy : List (Option Json) → Option Json
  | [] => none
  | g :: rest =>
      match g with
      | some v => if v.truthy then some v else specFirstTruthy rest
      | none => specFirstTruthy rest

/-- The candidate keys of `StripeDriver._parse_response`, in source order. -/
def stripeCandidateKeys : List String := ["data", "items", "results", "records"]

/-! ## Request dispatchers

`AmplitudeDriver._api_call` (src/amplitude/client.py:732-790),
`ApifyDriver._api_call_with_retry` (src/apify/client.py:617-717) and
`MpohodaDriver._api_call` (src/mpohoda/client.py:788-947), modelled over
an oracle `resp : Nat -> HttpResp` giving the remote response to the n-th
attempt (0-based). Transport-level exceptions are outside the model. -/

/-- The typed exception taxonomy shared by the drivers
(src/*/exceptions.py / the `base` modules). -/
inductive DriverExc where
  | authentication
  | connection
  | objectNotFound
  | fieldNotFound
  | querySyntax
  | rateLimit
  | validation
  | timedOut
  | generic
deriving DecidableEq

/-- An HTTP response as far as the retry loops inspect it: a status code
and an optional integer `Retry-After` header. -/
structure HttpResp where
  status : Nat
  retryAfter : Option Nat
deriving DecidableEq

/-- How a dispatcher call ends: a successful return (recording the index
of the successful attempt), a typed driver exception, the raw library
`requests.HTTPError` escaping unmapped, or the loop falling through and
implicitly returning `None`. -/
inductive ApiOutcome where
  | success (attempt : Nat)
  | exc (e : DriverExc)
  | httpError (status : Nat)
  | noneReturn
deriving DecidableEq

/-- Loop body of `AmplitudeDriver._api_call` (src/amplitude/client.py:753-790),
structural in the number of remaining loop iterations (`remaining` equals
`max_retries - attempt` at every call). `raise_for_status` raises for
statuses 400-599; only 429 is caught and retried, sleeping
`int(Retry-After header, default 2**attempt)` while `attempt <
max_retries - 1` and raising `RateLimitError` on the last attempt; any
other `HTTPError` is re-raised as is. Returns the outcome paired with the
list of sleep durations performed, in order. -/
def amplitudeLoop (resp : Nat → HttpResp) (attempt : Nat) :
    Nat → ApiOutcome × List Nat
  | 0 => (.noneReturn, [])
  | remaining + 1 =>
      let r := resp attempt
      if 400 ≤ r.status ∧ r.status < 600 then
        if r.status = 429 then
          let ra := r.retryAfter.getD (2 ^ attempt)
          match remaining with
          | 0 => (.exc .rateLimit, [])
          | k + 1 =>
              let rec_ := amplitudeLoop resp (attempt + 1) (k + 1)
              (rec_.1, ra :: rec_.2)
        else (.httpError r.status, [])
      else (.success attempt, [])

/-- `AmplitudeDriver._api_call` (src/amplitude/client.py:732-790):
`for attempt in range(self.max_retries)`. -/
def amplitudeApiCall (resp : Nat → HttpResp) (maxRetries : Nat) :
    ApiOutcome × List Nat :=
  amplitudeLoop resp 0 maxRetries

/-- Loop body of `ApifyDriver._api_call_with_retry`
(src/apify/client.py:645-717): 429 is retried exactly like Amplitude;
401 maps to `AuthenticationError`, 404 to `ObjectNotFoundError`, any
other status `>= 400` to `QuerySyntaxError`; a status below 400 returns
the response. Falling through the loop (only possible when
`max_retries = 0`) raises `ConnectionError`. -/
def apifyLoop (resp : Nat → HttpResp) (attempt : Nat) :
    Nat → ApiOutcome × List Nat
  | 0 => (.exc .connection, [])
  | remaining + 1 =>
      let r := resp attempt
      if r.status = 429 then
        let ra := r.retryAfter.getD (2 ^ attempt)
        match remaining with
        | 0 => (.exc .rateLimit, [])
        | k + 1 =>
            let rec_ := apifyLoop resp (attempt + 1) (k + 1)
            (rec_.1, ra :: rec_.2)
      else if r.status = 401 then (.exc .authentication, [])
      else if r.status = 404 then (.exc .objectNotFound, [])
      else if 400 ≤ r.status then (.exc .querySyntax, [])
      else (.success attempt, [])

/-- `ApifyDriver._api_call_with_retry` (src/apify/client.py:617-717):
`for attempt in range(self.max_retries)`. -/
def apifyApiCall (resp : Nat → HttpResp) (maxRetries : Nat) :
    ApiOutcome × List Nat :=
  apifyLoop resp 0 maxRetries

/-- Loop body of `MpohodaDriver._api_call` (src/mpohoda/client.py:821-947):
400 maps to `QuerySyntaxError`, 404 to `ObjectNotFoundError`, 422 to
`ValidationError`, all immediately; 429 sleeps `int(Retry-After header,
default 2**attempt)` and retries while `attempt < max_retries`, raising
`RateLimitError` when retries are exhausted; any status `>= 500` sleeps
`2**attempt` (the header is ignored) and retries while `attempt <
max_retries`, raising `ConnectionError` when exhausted; remaining error
statuses (401, 403, ...) escape as the raw `requests.HTTPError` from
`raise_for_status`. `remaining` equals `max_retries + 1 - attempt`. -/
def mpohodaLoop (resp : Nat → HttpResp) (attempt : Nat) :
    Nat → ApiOutcome × List Nat
  | 0 => (.exc .connection, [])
  | remaining + 1 =>
      let r := resp attempt
      if r.status = 400 then (.exc .querySyntax, [])
      else if r.status = 404 then (.exc .objectNotFound, [])
      else if r.status = 422 then (.exc .validation, [])
      else if r.status = 429 then
        let ra := r.retryAfter.getD (2 ^ attempt)
        match remaining with
        | 0 => (.exc .rateLimit, [])
        | k + 1 =>
            let rec_ := mpohodaLoop resp (attempt + 1) (k + 1)
            (rec_.1, ra :: rec_.2)
      else if 500 ≤ r.status then
        match remaining with
        | 0 => (.exc .connection, [])
        | k + 1 =>
            let rec_ := mpohodaLoop resp (attempt + 1) (k + 1)
            (rec_.1, 2 ^ attempt :: rec_.2)
      else if 400 ≤ r.status ∧ r.status < 600 then (.httpError r.status, [])
      else (.success attempt, [])

/-- `MpohodaDriver._api_call` (src/mpohoda/client.py:788-947):
`for attempt in range(self.max_retries + 1)`. -/
def mpohodaApiCall (resp : Nat → HttpResp) (maxRetries : Nat) :
    ApiOutcome × List Nat :=
  mpohodaLoop resp 0 (maxRetries + 1)

/-- Sleep schedule of one retry step, as a function of the absolute
attempt index: the integer `Retry-After` header when present, otherwise
`2 ^ attempt`. -/
def retryAfterOrExp (resp : Nat → HttpResp) (j : Nat) : Nat :=
  ((resp j).retryAfter).getD (2 ^ j)

/-! ## Batch iterators

`PostHogDriver.read_batched` (src/posthog/client.py:656-694),
`OdooDriver.read_batched` (src/odoo/client.py:477-526),
`ApifyDriver.read_batched` (src/apify/client.py:410-459), modelled over
an oracle `pages : Nat -> List Json` giving the list of records the
driver's `read` returns for the n-th dispatched request (0-based), with
fuel bounding the number of loop iterations examined. -/

/-- `PostHogDriver.read_batched` loop (src/posthog/client.py:687-694):
dispatch, stop if the page is empty, otherwise yield it, advance the
offset by `batch_size` and loop — there is no short-page check. Returns
the yielded batches and the number of requests dispatched. -/
def posthogReadBatchedRun (pages : Nat → List Json) (n : Nat) :
    Nat → List (List Json) × Nat
  | 0 => ([], 0)
  | fuel + 1 =>
      let batch := pages n
      if batch.isEmpty then ([], 1)
      else
        let rest := posthogReadBatchedRun pages (n + 1) fuel
        (batch :: rest.1, 1 + rest.2)

/-- `OdooDriver.read_batched` loop (src/odoo/client.py:507-526):
dispatch, stop if the page is empty, yield, stop when the page is short
(`len(batch) < batch_size`), otherwise advance the offset and loop.
Returns the yielded batches and the number of requests dispatched. -/
def odooReadBatchedRun (pages : Nat → List Json) (batchSize : Nat)
    (n : Nat) : Nat → List (List Json) × Nat
  | 0 => ([], 0)
  | fuel + 1 =>
      let batch := pages n
      if batch.isEmpty then ([], 1)
      else if batch.length < batchSize then ([batch], 1)
      else
        let rest := odooReadBatchedRun pages batchSize (n + 1) fuel
        (batch :: rest.1, 1 + rest.2)

/-- The query parameters a `read` call attaches to the dispatched HTTP
request, as far as pagination is concerned. -/
structure ReadParams where
  limit : Option Nat
  offset : Option Nat
deriving DecidableEq

/-- Parameter dict built by `PostHogDriver.read`
(src/posthog/client.py:591-593): `params = {"limit": limit}` always, and
`params["offset"] = offset` whenever offset is not `None` — the batch
loop always passes an integer offset. -/
def posthogReadRequestParams (limit offset : Nat) : ReadParams :=
  ⟨some limit, some offset⟩

/-- Parameter dict built by `ApifyDriver.read`
(src/apify/client.py:388-392): `params = {}`, then `if limit:` and
`if offset:` — a zero value is falsy, so the corresponding key is
omitted. -/
def apifyReadRequestParams (limit offset : Nat) : ReadParams :=
  ⟨if limit ≠ 0 then some limit else none,
   if offset ≠ 0 then some offset else none⟩

/-- Requests dispatched by `PostHogDriver.read_batched`
(src/posthog/client.py:687-694): `offset` starts at 0 and advances by
`batch_size` after every non-empty page. -/
def posthogReadBatchedRequests (pages : Nat → List Json) (batchSize : Nat)
    (offset n : Nat) : Nat → List ReadParams
  | 0 => []
  | fuel + 1 =>
      let req := posthogReadRequestParams batchSize offset
      let batch := pages n
      if batch.isEmpty then [req]
      else req :: posthogReadBatchedRequests pages batchSize
        (offset + batchSize) (n + 1) fuel

/-- Requests dispatched by `ApifyDriver.read_batched`
(src/apify/client.py:448-459): `offset` starts at 0 and advances by
`len(batch)`; the loop stops on an empty page or a short page. -/
def apifyReadBatchedRequests (pages : Nat → List Json) (batchSize : Nat)
    (offset n : Nat) : Nat → List ReadParams
  | 0 => []
  | fuel + 1 =>
      let req := apifyReadRequestParams batchSize offset
      let batch := pages n
      if batch.isEmpty then [req]
      else if batch.length < batchSize then [req]
      else req :: apifyReadBatchedRequests pages batchSize
        (offset + batch.length) (n + 1) fuel

/-- `MpohodaDriver._parse_response` applied to an already decoded JSON
body (src/mpohoda/client.py:982-1010): direct arrays pass through; an
object is probed with `data.get("items") or data.get("Items") or
data.get("data") or data.get("Data") or data.get("results") or
data.get("Results") or []`; any other value yields `[]`. The wrapping
step (src/mpohoda/client.py:1000-1007) is identical to Stripe's. -/
def mpohodaParseBody : Json → List Json
  | .arr xs => xs
  | .obj kvs =>
      stripeWrap
        (pyOr (Json.get kvs "items")
          (pyOr (Json.get kvs "Items")
            (pyOr (Json.get kvs "data")
              (pyOr (Json.get kvs "Data")
                (pyOr (Json.get kvs "results")
                  (pyOr (Json.get kvs "Results") (.arr [])))))))
  | _ => []

/-- `data.get("pagination", {}).get("pageToken")`
(src/mpohoda/client.py:555-556). A body or `pagination` value that is not
a dict (on which Python would raise `AttributeError`/`TypeError`) does
not occur in the theorems below and is modelled as "no token". -/
def mpohodaNextToken : Json → Option Json
  | .obj kvs =>
      match Json.get kvs "pagination" with
      | some (.obj pkvs) => Json.get pkvs "pageToken"
      | _ => none
  | _ => none

/-- `if next_token:` (src/mpohoda/client.py:558): the loop continues only
when a truthy page token is present. -/
def mpohodaTokenContinues : Option Json → Bool
  | some v => v.truthy
  | none => false

/-- Everything `MpohodaDriver._api_call` can do, as observed by its
callers: return a response (with a JSON body), raise one of the typed
driver exceptions, or — for statuses it does not map, such as 401/403 —
let the raw library `requests.HTTPError` from `raise_for_status`
(src/mpohoda/client.py:915) escape, since none of its `except` clauses
catches `requests` exceptions other than the transport-level ones. -/
inductive MpoCallResult where
  | ok (body : Json)
  | exc (e : DriverExc)
  | httpError (status : Nat)

/-- An exception escaping the `read_batched` generator to its consumer:
either a typed driver exception or the raw, unmapped library
`requests.HTTPError` carrying its status code. -/
inductive EscapedExc where
  | driver (e : DriverExc)
  | httpError (status : Nat)
deriving DecidableEq

/-- `MpohodaDriver.read_batched` loop (src/mpohoda/client.py:527-565)
over an oracle `calls : Nat -> MpoCallResult` giving the result of the
n-th `_api_call`. A `RateLimitError` is caught and merely breaks the
iteration (src/mpohoda/client.py:543-546); any other exception — typed
or the raw library `HTTPError` — is caught by nothing in `read_batched`
and propagates to the consumer. Non-empty record lists are yielded; the
loop continues only on a truthy `pagination.pageToken`. Returns the
yielded batches and the exception escaping the generator, if any. -/
def mpohodaReadBatchedRun (calls : Nat → MpoCallResult) (n : Nat) :
    Nat → List (List Json) × Option EscapedExc
  | 0 => ([], none)
  | fuel + 1 =>
      match calls n with
      | .exc e => if e = .rateLimit then ([], none) else ([], some (.driver e))
      | .httpError s => ([], some (.httpError s))
      | .ok body =>
          let records := mpohodaParseBody body
          let rest :=
            if mpohodaTokenContinues (mpohodaNextToken body) then
              mpohodaReadBatchedRun calls (n + 1) fuel
            else ([], none)
          if records.isEmpty then rest
          else (records :: rest.1, rest.2)

/-! ## Page-size enforcement

`StripeDriver.read` (src/stripe/client.py:327-413), `StripeDriver.read_batched`
(src/stripe/client.py:566-629), `MpohodaDriver.read`
(src/mpohoda/client.py:380-477) and `MpohodaDriver.read_batched`
(src/mpohoda/client.py:479-565). -/

/-- `MpohodaDriver.OBJECTS` (src/mpohoda/client.py:113-124). -/
def mpohodaObjects : List String :=
  ["Activities", "BusinessPartners", "Banks", "BankAccounts",
   "CashRegisters", "Centres", "Establishments", "Countries",
   "Currencies", "CityPostCodes"]

/-- `MpohodaDriver.MAX_PAGE_SIZE` (src/mpohoda/client.py:110). -/
def mpohodaMaxPageSize : Nat := 50

/-- Validation part of `MpohodaDriver.read` (src/mpohoda/client.py:420-453):
unknown object raises `ObjectNotFoundError`; `page_size` above
`MAX_PAGE_SIZE` or below 1 raises `ValidationError`; otherwise the
request is dispatched with `{"PageNumber": page_number, "PageSize":
page_size}`. -/
def mpohodaRead (objectName : String) (pageSize pageNumber : Nat) :
    Except DriverExc (Nat × Nat) :=
  if objectName ∈ mpohodaObjects then
    if pageSize > mpohodaMaxPageSize then .error .validation
    else if pageSize < 1 then .error .validation
    else .ok (pageNumber, pageSize)
  else .error .objectNotFound

/-- Validation and parameter-building part of `StripeDriver.read`
(src/stripe/client.py:362-392): a truthy `limit` above 100 or below 1
raises `ValidationError`; the request carries a `limit` parameter exactly
when `limit` is truthy. Returns the `limit` parameter dispatched. -/
def stripeRead (limit : Option Nat) : Except DriverExc (Option Nat) :=
  match limit with
  | some l =>
      if l ≠ 0 ∧ l > 100 then .error .validation
      else if l ≠ 0 ∧ l < 1 then .error .validation
      else .ok (if l ≠ 0 then some l else none)
  | none => .ok none

/-- Parameters of one request dispatched by `StripeDriver.read_batched`
(src/stripe/client.py:597-600): `{"limit": batch_size}` always, plus
`starting_after` when the cursor is truthy. -/
structure StripeBatchParams where
  limit : Nat
  startingAfter : Option Json

/-- `response_data.get("has_more", False)` under `if not ...`
(src/stripe/client.py:623-624); a non-dict body (on which Python's
`.get` would fail) does not occur in the theorems below and is modelled
as falsy. -/
def stripeHasMore : Json → Bool
  | .obj kvs => ((Json.get kvs "has_more").getD (.bool false)).truthy
  | _ => false

/-- `records[-1].get("id")` (src/stripe/client.py:628-629); a non-dict
last record is modelled as yielding no cursor. -/
def stripeLastId (records : List Json) : Option Json :=
  match records.getLast? with
  | some (.obj kvs) => Json.get kvs "id"
  | _ => none

/-- `if starting_after:` (src/stripe/client.py:599-600): the cursor
parameter is attached only when truthy. -/
def stripeCursorParam : Option Json → Option Json
  | some c => if c.truthy then some c else none
  | none => none

/-- Loop of `StripeDriver.read_batched` (src/stripe/client.py:595-629)
over an oracle `bodies : Nat -> Json` giving the JSON body of the n-th
response: dispatch, stop on an empty parse result, stop when `has_more`
is falsy, otherwise follow the cursor. Returns the parameters of the
dispatched requests in order. -/
def stripeReadBatchedRequests (bodies : Nat → Json) (bSize : Nat)
    (cursor : Option Json) (n : Nat) : Nat → List StripeBatchParams
  | 0 => []
  | fuel + 1 =>
      let req : StripeBatchParams := ⟨bSize, stripeCursorParam cursor⟩
      let body := bodies n
      let records := stripeParseBody body
      if records.isEmpty then [req]
      else if stripeHasMore body then
        req :: stripeReadBatchedRequests bodies bSize (stripeLastId records)
          (n + 1) fuel
      else [req]

/-- `StripeDriver.read_batched` (src/stripe/client.py:566-629): a
`batch_size` above 100 is silently reduced to 100
(src/stripe/client.py:586-589), then the loop starts with no cursor. -/
def stripeReadBatched (bodies : Nat → Json) (batchSize fuel : Nat) :
    List StripeBatchParams :=
  stripeReadBatchedRequests bodies
    (if batchSize > 100 then 100 else batchSize) none 0 fuel

/-- `PageSize` values dispatched by the `MpohodaDriver.read_batched` loop
(src/mpohoda/client.py:527-565): the clamped batch size is sent with
every request; iteration ends on an exception or a missing/falsy page
token. -/
def mpohodaReadBatchedPageSizes (calls : Nat → Except DriverExc Json)
    (bSize n : Nat) : Nat → List Nat
  | 0 => []
  | fuel + 1 =>
      bSize ::
        match calls n with
        | .error _ => []
        | .ok body =>
            if mpohodaTokenContinues (mpohodaNextToken body) then
              mpohodaReadBatchedPageSizes calls bSize (n + 1) fuel
            else []

/-- `MpohodaDriver.read_batched` (src/mpohoda/client.py:517-522): a
`batch_size` above `MAX_PAGE_SIZE` is silently capped. -/
def mpohodaReadBatchedSizes (calls : Nat → Except DriverExc Json)
    (batchSize fuel : Nat) : List Nat :=
  mpohodaReadBatchedPageSizes calls
    (if batchSize > mpohodaMaxPageSize then mpohodaMaxPageSize else batchSize)
    0 fuel

/-! ## list_objects returns a fresh copy

`StripeDriver.list_objects` (src/stripe/client.py:234-246) returns
`self.SUPPORTED_OBJECTS.copy()`. Python list mutation is modelled with a
small heap of list references. -/

/-- A heap of Python list objects: a store from references to list
values and the next fresh reference. -/
structure PyListHeap where
  store : Nat → List String
  next : Nat

/-- Allocate a new list object holding value `v`, returning the updated
heap and the fresh reference. -/
def heapAlloc (h : PyListHeap) (v : List String) : PyListHeap × Nat :=
  ({ store := fun r => if r = h.next then v else h.store r,
     next := h.next + 1 },
   h.next)

/-- In-place mutation of the list behind reference `r` (e.g. `lst.append`,
`lst.clear`, slice assignment — any new value `v`). -/
def heapWrite (h : PyListHeap) (r : Nat) (v : List String) : PyListHeap :=
  { h with store := fun r2 => if r2 = r then v else h.store r2 }

/-- A driver instance: it holds a reference to its `SUPPORTED_OBJECTS`
list. -/
structure DriverState where
  supportedRef : Nat

/-- `StripeDriver.list_objects` (src/stripe/client.py:246):
`return self.SUPPORTED_OBJECTS.copy()` — allocates a fresh list object
containing a copy of the driver's list and returns its reference. -/
def stripeListObjects (h : PyListHeap) (d : DriverState) :
    PyListHeap × Nat :=
  heapAlloc h (h.store d.supportedRef)

/-- The supported-objects list that the membership check inside
`StripeDriver.get_fields` reads (src/stripe/client.py:270): the driver's
own list, not any copy handed out earlier. -/
def stripeGetFieldsSees (h : PyListHeap) (d : DriverState) : List String :=
  h.store d.supportedRef

/-- The heap after a caller obtains a list from `list_objects` and
mutates it in place to an arbitrary value `v`. -/
def mutatedHeap (h : PyListHeap) (d : DriverState) (v : List String) :
    PyListHeap :=
  heapWrite (stripeListObjects h d).1 (stripeListObjects h d).2 v

/-! ## get_fields case-insensitivity

`StripeDriver.get_fields` (src/stripe/client.py:248-325) lowercases its
argument, checks membership in `SUPPORTED_OBJECTS`
(src/stripe/client.py:76-108, all lowercase ASCII) and looks up a
hardcoded schema with a generic fallback. Python's `str.lower` is
modelled on the ASCII letters, the only ones occurring in the driver's
tables. -/

/-- The ASCII uppercase/lowercase letter pairs. -/
def upperToLowerPairs : List (Char × Char) :=
  [('A', 'a'), ('B', 'b'), ('C', 'c'), ('D', 'd'), ('E', 'e'), ('F', 'f'),
   ('G', 'g'), ('H', 'h'), ('I', 'i'), ('J', 'j'), ('K', 'k'), ('L', 'l'),
   ('M', 'm'), ('N', 'n'), ('O', 'o'), ('P', 'p'), ('Q', 'q'), ('R', 'r'),
   ('S', 's'), ('T', 't'), ('U', 'u'), ('V', 'v'), ('W', 'w'), ('X', 'x'),
   ('Y', 'y'), ('Z', 'z')]

/-- `str.lower` on one character, restricted to ASCII. -/
def pyLowerChar (c : Char) : Char :=
  (((upperToLowerPairs.find? (fun p => p.1 == c))).map Prod.snd).getD c

/-- `object_name.lower()` (src/stripe/client.py:268), ASCII fragment. -/
def pyLower (s : String) : String :=
  ⟨s.data.map pyLowerChar⟩

/-- `StripeDriver.SUPPORTED_OBJECTS` (src/stripe/client.py:76-108). -/
def stripeSupportedObjects : List String :=
  ["account", "account_session", "application_fee_refund", "balance",
   "balance_transaction", "card", "charge", "checkout_session",
   "country_spec", "credit_grant", "credit_note", "customer",
   "customer_balance_transaction", "external_account_card",
   "financing_offer", "invoice", "invoice_payment", "meter_event",
   "meter_event_adjustment", "meter_event_summary", "payment_intent",
   "plan", "price", "product", "quote", "setup_attempt", "shipping_rate",
   "source", "subscription_item", "tax_code", "test_clock"]

/-- Field metadata entry (`{"type": ..., "required": ..., "label": ...}`). -/
structure FieldInfo where
  type : String
  required : Bool
  label : String
deriving DecidableEq

/-- Generic fallback schema (src/stripe/client.py:319-325). -/
def stripeGenericSchema : List (String × FieldInfo) :=
  [("id", ⟨"string", true, "ID"⟩),
   ("object", ⟨"string", false, "Object Type"⟩)]

/-- The hardcoded per-object schemas (src/stripe/client.py:282-316). -/
def stripeSchemas : List (String × List (String × FieldInfo)) :=
  [("product",
    [("id", ⟨"string", true, "ID"⟩),
     ("name", ⟨"string", true, "Product Name"⟩),
     ("description", ⟨"string", false, "Description"⟩),
     ("type", ⟨"string", true, "Type"⟩),
     ("metadata", ⟨"object", false, "Metadata"⟩)]),
   ("customer",
    [("id", ⟨"string", true, "ID"⟩),
     ("email", ⟨"string", false, "Email"⟩),
     ("name", ⟨"string", false, "Name"⟩),
     ("description", ⟨"string", false, "Description"⟩),
     ("metadata", ⟨"object", false, "Metadata"⟩)]),
   ("invoice",
    [("id", ⟨"string", true, "ID"⟩),
     ("customer", ⟨"string", false, "Customer ID"⟩),
     ("amount_paid", ⟨"integer", false, "Amount Paid"⟩),
     ("status", ⟨"string", false, "Status"⟩)]),
   ("charge",
    [("id", ⟨"string", true, "ID"⟩),
     ("amount", ⟨"integer", true, "Amount"⟩),
     ("currency", ⟨"string", true, "Currency"⟩),
     ("customer", ⟨"string", false, "Customer ID"⟩),
     ("status", ⟨"string", false, "Status"⟩)]),
   ("payment_intent",
    [("id", ⟨"string", true, "ID"⟩),
     ("amount", ⟨"integer", true, "Amount"⟩),
     ("currency", ⟨"string", true, "Currency"⟩),
     ("status", ⟨"string", false, "Status"⟩)])]

/-- `schemas.get(object_name_lower, generic)` (src/stripe/client.py:319). -/
def stripeFieldsFor (lower : String) : List (String × FieldInfo) :=
  ((stripeSchemas.find? (fun p => p.1 == lower)).map Prod.snd).getD
    stripeGenericSchema

/-- `StripeDriver.get_fields` (src/stripe/client.py:248-325): lowercase
the argument, raise `ObjectNotFoundError` unless it names a supported
object, then return its schema (generic fallback included). -/
def stripeGetFields (objectName : String) :
    Except DriverExc (List (String × FieldInfo)) :=
  if pyLower objectName ∈ stripeSupportedObjects then
    .ok (stripeFieldsFor (pyLower objectName))
  else .error .objectNotFound

deriving instance DecidableEq for Except

/-! ## Theorems -/

lemma specFirstTruthy_foldr (gs : List (Option Json)) :
    stripeWrap (gs.foldr pyOr (.arr [])) =
      match specFirstTruthy gs with
      | some v => specWrapAsList v
      | none => [] := by
  induction gs with
  | nil => rfl
  | cons g rest ih =>
      cases g with
      | none => simpa [specFirstTruthy, pyOr] using ih
      | some v =>
          by_cases hv : v.truthy
          · simp only [List.foldr, pyOr, hv, if_true, specFirstTruthy]
            cases v <;> simp_all [Json.truthy, specWrapAsList, stripeWrap]
          · simpa [specFirstTruthy, pyOr, hv] using ih

/-- C5 (amended): the response normalizer returns the value of the first
candidate key whose value is present and truthy (non-empty), probed in the
documented order; a falsy value (such as an empty list) under an earlier
key is skipped. In particular, whenever `data` holds a non-empty list, that
list is returned regardless of which other keys are present (`data` first
for Stripe), and whenever `root` holds a non-empty list Amplitude returns
it. -/
theorem parse_response_first_truthy_key :
    (∀ kvs xs, Json.get kvs "data" = some (Json.arr xs) → xs ≠ [] →
      stripeParseBody (Json.obj kvs) = xs) ∧
    (∀ kvs, stripeParseBody (Json.obj kvs) =
      match specFirstTruthy (stripeCandidateKeys.map (Json.get kvs)) with
      | some v => specWrapAsList v
      | none => []) ∧
    (∀ kvs xs, Json.get kvs "root" = some (Json.arr xs) → xs ≠ [] →
      amplitudeParseBody (Json.obj kvs) = Json.arr xs) := by
  refine ⟨?_, ?_, ?_⟩
  · intro kvs xs h hne
    simp [stripeParseBody, pyOr, h, Json.truthy, hne, stripeWrap]
  · intro kvs
    simpa [stripeParseBody, stripeCandidateKeys] using
      specFirstTruthy_foldr
        [Json.get kvs "data", Json.get kvs "items",
         Json.get kvs "results", Json.get kvs "records"]
  · intro kvs xs h hne
    simp [amplitudeParseBody, pyOr, h, Json.truthy, hne, amplitudeWrap]

/-- C5 witness: a body whose `data` key holds `[2]` parses to `[2]`. -/
theorem parse_response_first_truthy_key_witness :
    stripeParseBody (Json.obj [("data", Json.arr [Json.num 2])]) = [Json.num 2] :=
  parse_response_first_truthy_key.1 [("data", Json.arr [Json.num 2])]
    [Json.num 2] rfl (by simp)

/-- C5 counterexample: on the body `{"data": [], "items": [1]}` the first
candidate key in the documented order is `data` with value `[]`, but
`StripeDriver._parse_response` returns `[1]`, not `[]`: the claim as
stated fails because falsy values are skipped by the `or` chain. -/
theorem stripe_parse_skips_empty_data :
    specStripeFirstCandidateKey
        [("data", Json.arr []), ("items", Json.arr [Json.num 1])] =
      some (Json.arr []) ∧
    specWrapAsList (Json.arr []) = ([] : List Json) ∧
    stripeParseBody
        (Json.obj [("data", Json.arr []), ("items", Json.arr [Json.num 1])]) =
      [Json.num 1] ∧
    ([Json.num 1] : List Json) ≠ [] :=
  ⟨rfl, rfl, rfl, by simp⟩

lemma range_map_shift {α : Type} (g : Nat → α) (k a : Nat) :
    (List.range (k + 1)).map (fun i => g (a + i)) =
      g a :: (List.range k).map (fun i => g (a + 1 + i)) := by
  rw [List.range_succ_eq_map]
  simp only [List.map_cons, List.map_map, Nat.add_zero]
  refine congrArg (g a :: ·) ?_
  refine List.map_congr_left ?_
  intro i _
  simp only [Function.comp_apply]
  congr 1
  omega

lemma amplitudeLoop_429 (resp : Nat → HttpResp)
    (h : ∀ n, (resp n).status = 429) :
    ∀ remaining attempt, 1 ≤ remaining →
      amplitudeLoop resp attempt remaining =
        (.exc .rateLimit,
          (List.range (remaining - 1)).map
            (fun i => retryAfterOrExp resp (attempt + i))) := by
  intro remaining
  induction remaining with
  | zero => intro attempt h1; exact absurd h1 (by omega)
  | succ k ih =>
      intro attempt _
      cases k with
      | zero =>
          simp [amplitudeLoop, h attempt]
      | succ m =>
          have hk := ih (attempt + 1) (by omega)
          simp only [amplitudeLoop, h attempt, hk]
          norm_num
          rw [range_map_shift (retryAfterOrExp resp) m attempt]
          simp [retryAfterOrExp]

lemma apifyLoop_429 (resp : Nat → HttpResp)
    (h : ∀ n, (resp n).status = 429) :
    ∀ remaining attempt, 1 ≤ remaining →
      apifyLoop resp attempt remaining =
        (.exc .rateLimit,
          (List.range (remaining - 1)).map
            (fun i => retryAfterOrExp resp (attempt + i))) := by
  intro remaining
  induction remaining with
  | zero => intro attempt h1; exact absurd h1 (by omega)
  | succ k ih =>
      intro attempt _
      cases k with
      | zero =>
          simp [apifyLoop, h attempt]
      | succ m =>
          have hk := ih (attempt + 1) (by omega)
          simp only [apifyLoop, h attempt, hk]
          norm_num
          rw [range_map_shift (retryAfterOrExp resp) m attempt]
          simp [retryAfterOrExp]

lemma mpohodaLoop_429 (resp : Nat → HttpResp)
    (h : ∀ n, (resp n).status = 429) :
    ∀ remaining attempt, 1 ≤ remaining →
      mpohodaLoop resp attempt remaining =
        (.exc .rateLimit,
          (List.range (remaining - 1)).map
            (fun i => retryAfterOrExp resp (attempt + i))) := by
  intro remaining
  induction remaining with
  | zero => intro attempt h1; exact absurd h1 (by omega)
  | succ k ih =>
      intro attempt _
      cases k with
      | zero =>
          simp [mpohodaLoop, h attempt]
      | succ m =>
          have hk := ih (attempt + 1) (by omega)
          simp only [mpohodaLoop, h attempt, hk]
          norm_num
          rw [range_map_shift (retryAfterOrExp resp) m attempt]
          simp [retryAfterOrExp]

lemma mpohodaLoop_5xx (resp : Nat → HttpResp)
    (h : ∀ n, 500 ≤ (resp n).status) :
    ∀ remaining attempt, 1 ≤ remaining →
      mpohodaLoop resp attempt remaining =
        (.exc .connection,
          (List.range (remaining - 1)).map (fun i => 2 ^ (attempt + i))) := by
  intro remaining
  induction remaining with
  | zero => intro attempt h1; exact absurd h1 (by omega)
  | succ k ih =>
      intro attempt _
      have h400 : (resp attempt).status ≠ 400 := by have := h attempt; omega
      have h404 : (resp attempt).status ≠ 404 := by have := h attempt; omega
      have h422 : (resp attempt).status ≠ 422 := by have := h attempt; omega
      have h429 : (resp attempt).status ≠ 429 := by have := h attempt; omega
      cases k with
      | zero =>
          simp [mpohodaLoop, h400, h404, h422, h429, h attempt]
      | succ m =>
          have hk := ih (attempt + 1) (by omega)
          simp only [mpohodaLoop, h400, h404, h422, h429, h attempt, hk,
            if_false, if_true]
          norm_num [h400, h404, h422, h429, h attempt]
          rw [range_map_shift (fun j => 2 ^ j) m attempt]

/-- C2: under a remote that answers every attempt with HTTP 429, each of
the three dispatcher loops performs no more retries than `max_retries`
(Amplitude and Apify retry `max_retries - 1` times, mPOHODA exactly
`max_retries` times) and then raises `RateLimitError` instead of
attempting again. -/
theorem retries_stop_after_max_retries (resp : Nat → HttpResp)
    (maxRetries : Nat) (h429 : ∀ n, (resp n).status = 429)
    (hpos : 1 ≤ maxRetries) :
    ((amplitudeApiCall resp maxRetries).1 = .exc .rateLimit ∧
      (amplitudeApiCall resp maxRetries).2.length = maxRetries - 1 ∧
      (amplitudeApiCall resp maxRetries).2.length ≤ maxRetries) ∧
    ((apifyApiCall resp maxRetries).1 = .exc .rateLimit ∧
      (apifyApiCall resp maxRetries).2.length = maxRetries - 1 ∧
      (apifyApiCall resp maxRetries).2.length ≤ maxRetries) ∧
    ((mpohodaApiCall resp maxRetries).1 = .exc .rateLimit ∧
      (mpohodaApiCall resp maxRetries).2.length = maxRetries ∧
      (mpohodaApiCall resp maxRetries).2.length ≤ maxRetries) := by
  have ha := amplitudeLoop_429 resp h429 maxRetries 0 hpos
  have hb := apifyLoop_429 resp h429 maxRetries 0 hpos
  have hc := mpohodaLoop_429 resp h429 (maxRetries + 1) 0 (by omega)
  refine ⟨?_, ?_, ?_⟩ <;>
    simp [amplitudeApiCall, apifyApiCall, mpohodaApiCall, ha, hb, hc]

/-- C2 witness: with every response a bare 429 and `max_retries = 2`,
Amplitude and Apify retry once, mPOHODA twice, and all three raise
`RateLimitError`. -/
theorem retries_stop_after_max_retries_witness :
    ((amplitudeApiCall (fun _ => ⟨429, none⟩) 2).1 =
        ApiOutcome.exc .rateLimit ∧
      (amplitudeApiCall (fun _ => ⟨429, none⟩) 2).2.length = 2 - 1 ∧
      (amplitudeApiCall (fun _ => ⟨429, none⟩) 2).2.length ≤ 2) ∧
    ((apifyApiCall (fun _ => ⟨429, none⟩) 2).1 = ApiOutcome.exc .rateLimit ∧
      (apifyApiCall (fun _ => ⟨429, none⟩) 2).2.length = 2 - 1 ∧
      (apifyApiCall (fun _ => ⟨429, none⟩) 2).2.length ≤ 2) ∧
    ((mpohodaApiCall (fun _ => ⟨429, none⟩) 2).1 =
        ApiOutcome.exc .rateLimit ∧
      (mpohodaApiCall (fun _ => ⟨429, none⟩) 2).2.length = 2 ∧
      (mpohodaApiCall (fun _ => ⟨429, none⟩) 2).2.length ≤ 2) :=
  retries_stop_after_max_retries (fun _ => ⟨429, none⟩) 2 (fun _ => rfl)
    (by omega)

/-- C3 (amended): mPOHODA's dispatcher retries, with backoff, 429 and
every status `>= 500` (not just 500/502/503/504) while attempts remain,
and maps 400, 404 and 422 to typed exceptions immediately without a
retry; Amplitude's dispatcher loop retries only 429 — any other error
status in 400-599 is raised immediately (as the unmapped library
`HTTPError`), without a retry. -/
theorem retry_status_set_amended (resp : Nat → HttpResp) (maxRetries : Nat) :
    ((∀ n, (resp n).status = 429) →
      (mpohodaApiCall resp maxRetries).1 = .exc .rateLimit ∧
      (mpohodaApiCall resp maxRetries).2.length = maxRetries) ∧
    ((∀ n, 500 ≤ (resp n).status) →
      (mpohodaApiCall resp maxRetries).1 = .exc .connection ∧
      (mpohodaApiCall resp maxRetries).2.length = maxRetries) ∧
    ((resp 0).status = 400 →
      mpohodaApiCall resp maxRetries = (.exc .querySyntax, [])) ∧
    ((resp 0).status = 404 →
      mpohodaApiCall resp maxRetries = (.exc .objectNotFound, [])) ∧
    ((resp 0).status = 422 →
      mpohodaApiCall resp maxRetries = (.exc .validation, [])) ∧
    ((∀ n, (resp n).status = 429) → 1 ≤ maxRetries →
      (amplitudeApiCall resp maxRetries).1 = .exc .rateLimit ∧
      (amplitudeApiCall resp maxRetries).2.length = maxRetries - 1) ∧
    (∀ s, (resp 0).status = s → 400 ≤ s → s < 600 → s ≠ 429 →
      1 ≤ maxRetries →
      amplitudeApiCall resp maxRetries = (.httpError s, [])) := by
  refine ⟨?_, ?_, ?_, ?_, ?_, ?_, ?_⟩
  · intro h
    have hc := mpohodaLoop_429 resp h (maxRetries + 1) 0 (by omega)
    simp [mpohodaApiCall, hc]
  · intro h
    have hc := mpohodaLoop_5xx resp h (maxRetries + 1) 0 (by omega)
    simp [mpohodaApiCall, hc]
  · intro h
    simp only [mpohodaApiCall]
    rw [mpohodaLoop.eq_def]
    simp [h]
  · intro h
    have h400 : (resp 0).status ≠ 400 := by omega
    simp only [mpohodaApiCall]
    rw [mpohodaLoop.eq_def]
    simp [h, h400]
  · intro h
    have h400 : (resp 0).status ≠ 400 := by omega
    have h404 : (resp 0).status ≠ 404 := by omega
    simp only [mpohodaApiCall]
    rw [mpohodaLoop.eq_def]
    simp [h, h400, h404]
  · intro h hpos
    have hc := amplitudeLoop_429 resp h maxRetries 0 hpos
    simp [amplitudeApiCall, hc]
  · intro s hs h400 h600 h429 hpos
    obtain ⟨k, rfl⟩ : ∃ k, maxRetries = k + 1 :=
      ⟨maxRetries - 1, by omega⟩
    simp only [amplitudeApiCall]
    rw [amplitudeLoop.eq_def]
    simp [hs, h400, h600, h429]

/-- C3 witness: a first response of 404 makes mPOHODA's dispatcher raise
`ObjectNotFoundError` at once, with no sleep. -/
theorem retry_status_set_amended_witness :
    mpohodaApiCall (fun _ => ⟨404, none⟩) 1 = (.exc .objectNotFound, []) :=
  (retry_status_set_amended (fun _ => ⟨404, none⟩) 1).2.2.2.1 rfl

/-- C3 counterexample: status 501 is not in {429, 500, 502, 503, 504},
yet with every response a bare 501 and `max_retries = 2` mPOHODA's
dispatcher sleeps twice (1s then 2s) before raising — the claim's "any
other error status is not retried" is false on the code. -/
theorem mpohoda_retries_status_501 :
    (501 ∉ [429, 500, 502, 503, 504]) ∧
    mpohodaApiCall (fun _ => ⟨501, none⟩) 2 = (.exc .connection, [1, 2]) ∧
    ([1, 2] : List Nat) ≠ [] := by
  refine ⟨by decide, by decide, by decide⟩

/-- C7 (amended): before retry number `attempt + 1` each dispatcher
sleeps exactly `2 ^ attempt` seconds when the response carries no
`Retry-After` header, and uses the integer `Retry-After` value when
present on a 429 — except that mPOHODA's 5xx retries always sleep
`2 ^ attempt`, ignoring a `Retry-After` header when one is present. -/
theorem backoff_exponential_in_attempt (resp : Nat → HttpResp)
    (maxRetries : Nat) :
    (∀ h : Option Nat, (∀ n, resp n = ⟨429, h⟩) → 1 ≤ maxRetries →
      (amplitudeApiCall resp maxRetries).2 =
        (List.range (maxRetries - 1)).map (fun i => h.getD (2 ^ i)) ∧
      (apifyApiCall resp maxRetries).2 =
        (List.range (maxRetries - 1)).map (fun i => h.getD (2 ^ i)) ∧
      (mpohodaApiCall resp maxRetries).2 =
        (List.range maxRetries).map (fun i => h.getD (2 ^ i))) ∧
    ((∀ n, 500 ≤ (resp n).status) →
      (mpohodaApiCall resp maxRetries).2 =
        (List.range maxRetries).map (fun i => 2 ^ i)) := by
  constructor
  · intro h hresp hpos
    have hstat : ∀ n, (resp n).status = 429 := fun n => by
      rw [hresp n]
    have ha := amplitudeLoop_429 resp hstat maxRetries 0 hpos
    have hb := apifyLoop_429 resp hstat maxRetries 0 hpos
    have hc := mpohodaLoop_429 resp hstat (maxRetries + 1) 0 (by omega)
    refine ⟨?_, ?_, ?_⟩ <;>
      simp [amplitudeApiCall, apifyApiCall, mpohodaApiCall, ha, hb, hc,
        retryAfterOrExp, hresp]
  · intro h5
    have hc := mpohodaLoop_5xx resp h5 (maxRetries + 1) 0 (by omega)
    simp [mpohodaApiCall, hc]

/-- C7 witness: with every response `429` carrying `Retry-After: 5` and
`max_retries = 3`, Amplitude sleeps 5 seconds before each of its two
retries. -/
theorem backoff_exponential_in_attempt_witness :
    (amplitudeApiCall (fun _ => ⟨429, some 5⟩) 3).2 =
      (List.range (3 - 1)).map (fun i => (some 5 : Option Nat).getD (2 ^ i)) :=
  (((backoff_exponential_in_attempt (fun _ => ⟨429, some 5⟩) 3).1
      (some 5) (fun _ => rfl) (by omega)).1)

/-- C7 counterexample: a 503 response carrying `Retry-After: 7` is
retried by mPOHODA's dispatcher after sleeping `2 ^ 0 = 1` second, not
the 7 seconds the claim's parenthetical requires. -/
theorem mpohoda_5xx_ignores_retry_after :
    (mpohodaApiCall (fun _ => ⟨503, some 7⟩) 1).2 = [1] ∧
    ([1] : List Nat) ≠ [7] := by
  refine ⟨by decide, by decide⟩

lemma odooReadBatchedRun_requests_le (pages : Nat → List Json)
    (batchSize : Nat) :
    ∀ fuel n k, n ≤ k → (pages k).length < batchSize →
      (odooReadBatchedRun pages batchSize n fuel).2 ≤ k + 1 - n := by
  intro fuel
  induction fuel with
  | zero =>
      intro n k hnk _
      simp [odooReadBatchedRun]
  | succ f ih =>
      intro n k hnk hk
      by_cases he : (pages n).isEmpty
      · simp [odooReadBatchedRun, he]
        omega
      · by_cases hs : (pages n).length < batchSize
        · simp [odooReadBatchedRun, he, hs]
          omega
        · have hne : n ≠ k := by
            intro heq
            exact hs (heq ▸ hk)
          have hrec := ih (n + 1) k (by omega) hk
          simp [odooReadBatchedRun, he, hs]
          omega

lemma posthogReadBatchedRun_requests_le (pages : Nat → List Json) :
    ∀ fuel n k, n ≤ k → (pages k).isEmpty = true →
      (posthogReadBatchedRun pages n fuel).2 ≤ k + 1 - n := by
  intro fuel
  induction fuel with
  | zero =>
      intro n k hnk _
      simp [posthogReadBatchedRun]
  | succ f ih =>
      intro n k hnk hk
      by_cases he : (pages n).isEmpty
      · simp [posthogReadBatchedRun, he]
        omega
      · have hne : n ≠ k := by
          intro heq
          exact he (heq ▸ hk)
        have hrec := ih (n + 1) k (by omega) hk
        simp [posthogReadBatchedRun, he]
        omega

/-- C1 (amended): Odoo's batch iterator stops after a short page — once
request `k` returns fewer than `batch_size` records, no request beyond
index `k` is dispatched; PostHog's batch iterator stops only on an empty
page — once request `k` returns an empty page, no request beyond index
`k` is dispatched, but a short non-empty page does not end the
iteration. -/
theorem read_batched_short_page_stop (pages : Nat → List Json)
    (batchSize k fuel : Nat) :
    ((pages k).length < batchSize →
      (odooReadBatchedRun pages batchSize 0 fuel).2 ≤ k + 1) ∧
    ((pages k).isEmpty = true →
      (posthogReadBatchedRun pages 0 fuel).2 ≤ k + 1) := by
  constructor
  · intro hk
    simpa using odooReadBatchedRun_requests_le pages batchSize fuel 0 k
      (by omega) hk
  · intro hk
    simpa using posthogReadBatchedRun_requests_le pages fuel 0 k
      (by omega) hk

/-- C1 witness: when the very first page is empty, both iterators
dispatch at most one request. -/
theorem read_batched_short_page_stop_witness :
    (odooReadBatchedRun (fun _ => []) 2 0 5).2 ≤ 0 + 1 ∧
    (posthogReadBatchedRun (fun _ => []) 0 5).2 ≤ 0 + 1 :=
  ⟨(read_batched_short_page_stop (fun _ => []) 2 0 5).1 (by decide),
   (read_batched_short_page_stop (fun _ => []) 2 0 5).2 rfl⟩

/-- C1 counterexample: with `batch_size = 2` and a remote returning the
short page `[null]` to request 0 and `[]` to request 1, PostHog's
`read_batched` yields the short page and then dispatches a second
request: 2 requests in total, where the claim allows at most 1. -/
theorem posthog_read_batched_short_page_continues :
    ((fun n => if n = 0 then [Json.null] else ([] : List Json)) 0).length
        < 2 ∧
    (posthogReadBatchedRun
        (fun n => if n = 0 then [Json.null] else []) 0 3).2 = 2 ∧
    ¬ ((posthogReadBatchedRun
        (fun n => if n = 0 then [Json.null] else []) 0 3).2 ≤ 0 + 1) := by
  refine ⟨by decide, by decide, by decide⟩

lemma posthogReadBatchedRequests_get (pages : Nat → List Json)
    (batchSize : Nat) :
    ∀ fuel offset n (i : Nat) (p : ReadParams),
      (posthogReadBatchedRequests pages batchSize offset n fuel)[i]? =
        some p →
      p = ⟨some batchSize, some (offset + i * batchSize)⟩ := by
  intro fuel
  induction fuel with
  | zero =>
      intro offset n i p h
      simp [posthogReadBatchedRequests] at h
  | succ f ih =>
      intro offset n i p h
      cases i with
      | zero =>
          by_cases he : (pages n).isEmpty <;>
            simp [posthogReadBatchedRequests, he] at h <;>
            simp [← h, posthogReadRequestParams]
      | succ j =>
          by_cases he : (pages n).isEmpty
          · simp [posthogReadBatchedRequests, he] at h
          · simp [posthogReadBatchedRequests, he] at h
            have hj := ih (offset + batchSize) (n + 1) j p h
            rw [hj]
            congr 2
            ring

lemma apifyReadRequestParams_spec (b off : Nat) (hb : 1 ≤ b) :
    (apifyReadRequestParams b off).limit = some b ∧
    (apifyReadRequestParams b off).offset.getD 0 = off := by
  unfold apifyReadRequestParams
  constructor
  · simp only []
    rw [if_pos (by omega)]
  · by_cases ho : off = 0 <;> simp [ho]

lemma apifyReadBatchedRequests_get (pages : Nat → List Json)
    (batchSize : Nat) (hb : 1 ≤ batchSize)
    (hle : ∀ k, (pages k).length ≤ batchSize) :
    ∀ fuel offset n (i : Nat) (p : ReadParams),
      (apifyReadBatchedRequests pages batchSize offset n fuel)[i]? =
        some p →
      p.limit = some batchSize ∧
      p.offset.getD 0 = offset + i * batchSize := by
  intro fuel
  induction fuel with
  | zero =>
      intro offset n i p h
      simp [apifyReadBatchedRequests] at h
  | succ f ih =>
      intro offset n i p h
      cases i with
      | zero =>
          have hspec := apifyReadRequestParams_spec batchSize offset hb
          by_cases he : (pages n).isEmpty
          · simp [apifyReadBatchedRequests, he] at h
            simp [← h, hspec.1, hspec.2]
          · by_cases hs : (pages n).length < batchSize
            · simp [apifyReadBatchedRequests, he, hs] at h
              simp [← h, hspec.1, hspec.2]
            · simp [apifyReadBatchedRequests, he, hs] at h
              simp [← h, hspec.1, hspec.2]
      | succ j =>
          by_cases he : (pages n).isEmpty
          · simp [apifyReadBatchedRequests, he] at h
          · by_cases hs : (pages n).length < batchSize
            · simp [apifyReadBatchedRequests, he, hs] at h
            · simp [apifyReadBatchedRequests, he, hs] at h
              have hlen : (pages n).length = batchSize := by
                have := hle n
                omega
              rw [hlen] at h
              have hj := ih (offset + batchSize) (n + 1) j p h
              have hmul : (j + 1) * batchSize = j * batchSize + batchSize :=
                Nat.succ_mul j batchSize
              exact ⟨hj.1, by omega⟩

/-- C4 (amended): in both offset-paginated batch loops every dispatched
request carries `limit = batch_size`, and the effective offset of the
n-th request (the `offset` parameter, an absent parameter meaning 0) is
`n * batch_size` — PostHog always sends the offset parameter explicitly,
while Apify omits it when the offset value is 0, i.e. on the first
request; Apify's advance-by-`len(batch)` variant produces the same
sequence provided every returned page has at most `batch_size` records,
since it only continues after a full page. -/
theorem offset_advances_by_batch_size (pages : Nat → List Json)
    (batchSize fuel : Nat) :
    (∀ (i : Nat) (p : ReadParams),
      (posthogReadBatchedRequests pages batchSize 0 0 fuel)[i]? = some p →
      p.limit = some batchSize ∧ p.offset = some (i * batchSize)) ∧
    (1 ≤ batchSize → (∀ k, (pages k).length ≤ batchSize) →
      ∀ (i : Nat) (p : ReadParams),
      (apifyReadBatchedRequests pages batchSize 0 0 fuel)[i]? = some p →
      p.limit = some batchSize ∧ p.offset.getD 0 = i * batchSize) := by
  constructor
  · intro i p h
    have := posthogReadBatchedRequests_get pages batchSize fuel 0 0 i p h
    simp [this]
  · intro hb hle i p h
    have := apifyReadBatchedRequests_get pages batchSize hb hle fuel 0 0 i p h
    simpa using this

/-- C4 witness: with pages of exactly 2 records and `batch_size = 2`, the
second Apify request (index 1) carries `limit = 2` and effective offset
`1 * 2`. -/
theorem offset_advances_by_batch_size_witness :
    (⟨some 2, some 2⟩ : ReadParams).limit = some 2 ∧
    (⟨some 2, some 2⟩ : ReadParams).offset.getD 0 = 1 * 2 :=
  (offset_advances_by_batch_size
      (fun _ => [Json.null, Json.null]) 2 2).2 (by omega)
    (fun _ => by simp) 1 ⟨some 2, some 2⟩ rfl

/-- C4 counterexample: Apify's first dispatched request carries no
`offset` parameter at all (`if offset:` is falsy at 0), so it does not
carry `offset = 0 * batch_size` as the claim states. -/
theorem apify_first_request_omits_offset :
    apifyReadBatchedRequests (fun _ => []) 5 0 0 1 = [⟨some 5, none⟩] ∧
    (ReadParams.offset ⟨some 5, none⟩) ≠ some (0 * 5) := by
  refine ⟨by decide, by decide⟩

lemma mpohodaReadBatchedRun_no_rateLimit
    (calls : Nat → MpoCallResult) :
    ∀ fuel n, (mpohodaReadBatchedRun calls n fuel).2 ≠
      some (.driver .rateLimit) := by
  intro fuel
  induction fuel with
  | zero =>
      intro n
      simp [mpohodaReadBatchedRun]
  | succ f ih =>
      intro n
      cases hc : calls n with
      | exc e =>
          by_cases he : e = .rateLimit <;>
            simp [mpohodaReadBatchedRun, hc, he]
      | httpError s =>
          simp [mpohodaReadBatchedRun, hc]
      | ok body =>
          simp only [mpohodaReadBatchedRun, hc]
          split_ifs <;> simp [ih]

/-- C6 (amended): exceptions leave mPOHODA's `read_batched` in three
ways, not one: a `RateLimitError` from the dispatcher is caught
mid-iteration and the iteration silently ends, so it never reaches the
consumer; any other typed driver exception propagates to the consumer;
and for the statuses the dispatcher leaves unmapped (e.g. 401/403) the
raw library `requests.HTTPError` propagates to the consumer unmapped —
so not every failure surfaces as a typed driver exception. -/
theorem read_batched_error_propagation
    (calls : Nat → MpoCallResult) (fuel : Nat) :
    (∀ n, (mpohodaReadBatchedRun calls n fuel).2 ≠
      some (.driver .rateLimit)) ∧
    (∀ e, calls 0 = .exc e → e ≠ .rateLimit → 1 ≤ fuel →
      mpohodaReadBatchedRun calls 0 fuel = ([], some (.driver e))) ∧
    (∀ s, calls 0 = .httpError s → 1 ≤ fuel →
      mpohodaReadBatchedRun calls 0 fuel = ([], some (.httpError s))) := by
  refine ⟨?_, ?_, ?_⟩
  · intro n
    exact mpohodaReadBatchedRun_no_rateLimit calls fuel n
  · intro e hc he hf
    obtain ⟨f, rfl⟩ : ∃ f, fuel = f + 1 := ⟨fuel - 1, by omega⟩
    simp [mpohodaReadBatchedRun, hc, he]
  · intro s hc hf
    obtain ⟨f, rfl⟩ : ∃ f, fuel = f + 1 := ⟨fuel - 1, by omega⟩
    simp [mpohodaReadBatchedRun, hc]

/-- C6 witness: a typed `ObjectNotFoundError` from the first dispatched
request escapes mPOHODA's `read_batched`, and so does the raw library
`HTTPError` of an unmapped 401. -/
theorem read_batched_error_propagation_witness :
    mpohodaReadBatchedRun (fun _ => .exc .objectNotFound) 0 1 =
      ([], some (.driver .objectNotFound)) ∧
    mpohodaReadBatchedRun (fun _ => .httpError 401) 0 1 =
      ([], some (.httpError 401)) :=
  ⟨(read_batched_error_propagation (fun _ => .exc .objectNotFound) 1).2.1
     .objectNotFound rfl (by decide) (by omega),
   (read_batched_error_propagation (fun _ => .httpError 401) 1).2.2
     401 rfl (by omega)⟩

/-- C6 counterexample: when every dispatched request raises
`RateLimitError`, mPOHODA's `read_batched` ends normally with no
exception reaching the caller — the error response is swallowed, where
the claim requires the typed `RateLimitError` to be raised
mid-iteration. -/
theorem mpohoda_read_batched_swallows_rate_limit :
    mpohodaReadBatchedRun (fun _ => .exc .rateLimit) 0 5 = ([], none) ∧
    (none : Option EscapedExc) ≠ some (.driver .rateLimit) :=
  ⟨rfl, by simp⟩

lemma stripeReadBatchedRequests_limit (bodies : Nat → Json) (bSize : Nat) :
    ∀ fuel cursor n p,
      p ∈ stripeReadBatchedRequests bodies bSize cursor n fuel →
      p.limit = bSize := by
  intro fuel
  induction fuel with
  | zero =>
      intro cursor n p h
      simp [stripeReadBatchedRequests] at h
  | succ f ih =>
      intro cursor n p h
      simp only [stripeReadBatchedRequests] at h
      split_ifs at h with h1 h2
      · simp at h
        subst h
        rfl
      · rcases List.mem_cons.mp h with h3 | h3
        · subst h3
          rfl
        · exact ih _ _ p h3
      · simp at h
        subst h
        rfl

lemma mpohodaReadBatchedPageSizes_mem (calls : Nat → Except DriverExc Json)
    (bSize : Nat) :
    ∀ fuel n s, s ∈ mpohodaReadBatchedPageSizes calls bSize n fuel →
      s = bSize := by
  intro fuel
  induction fuel with
  | zero =>
      intro n s h
      simp [mpohodaReadBatchedPageSizes] at h
  | succ f ih =>
      intro n s h
      simp only [mpohodaReadBatchedPageSizes] at h
      rcases List.mem_cons.mp h with h1 | h1
      · exact h1
      · cases hc : calls n with
        | error e => simp [hc] at h1
        | ok body =>
            rw [hc] at h1
            by_cases ht : mpohodaTokenContinues (mpohodaNextToken body)
            · simp only [ht, if_true] at h1
              exact ih (n + 1) s h1
            · simp [ht] at h1

/-- C8: on every modelled read path, a page size above the driver's API
maximum (100 for Stripe, 50 for mPOHODA) never reaches the wire:
`StripeDriver.read` and `MpohodaDriver.read` reject it with a
`ValidationError` (mPOHODA first rejecting unknown objects), while
`StripeDriver.read_batched` and `MpohodaDriver.read_batched` silently
reduce the dispatched page size to the maximum. -/
theorem page_size_le_api_maximum :
    (∀ l, 100 < l → stripeRead (some l) = .error .validation) ∧
    (∀ bodies batchSize fuel p,
      p ∈ stripeReadBatched bodies batchSize fuel →
      p.limit ≤ 100 ∧ (100 < batchSize → p.limit = 100)) ∧
    (∀ name pageSize pageNumber, 50 < pageSize →
      mpohodaRead name pageSize pageNumber =
        .error (if name ∈ mpohodaObjects then .validation
          else .objectNotFound)) ∧
    (∀ calls batchSize fuel s,
      s ∈ mpohodaReadBatchedSizes calls batchSize fuel →
      s ≤ 50 ∧ (50 < batchSize → s = 50)) := by
  refine ⟨?_, ?_, ?_, ?_⟩
  · intro l hl
    have h0 : l ≠ 0 := by omega
    simp [stripeRead, h0, hl]
  · intro bodies batchSize fuel p hp
    have := stripeReadBatchedRequests_limit bodies
      (if batchSize > 100 then 100 else batchSize) fuel none 0 p hp
    rw [this]
    split_ifs with h1
    · omega
    · constructor
      · omega
      · intro h2
        omega
  · intro name pageSize pageNumber hps
    by_cases hm : name ∈ mpohodaObjects <;>
      simp [mpohodaRead, hm, mpohodaMaxPageSize, hps, Nat.lt_of_lt_of_le]
  · intro calls batchSize fuel s hs
    have := mpohodaReadBatchedPageSizes_mem calls
      (if batchSize > mpohodaMaxPageSize then mpohodaMaxPageSize
        else batchSize) fuel 0 s hs
    rw [this]
    simp only [mpohodaMaxPageSize]
    split_ifs with h1
    · omega
    · constructor
      · omega
      · intro h2
        omega

/-- C8 witness: a `read` with limit 150 is rejected by Stripe, a
`read_batched` with batch size 200 dispatches limit 100, mPOHODA rejects
page size 60 on a known object, and a mPOHODA batch size 70 dispatches
`PageSize` 50. -/
theorem page_size_le_api_maximum_witness :
    stripeRead (some 150) = .error .validation ∧
    ((⟨100, none⟩ : StripeBatchParams).limit ≤ 100 ∧
      (100 < 200 → (⟨100, none⟩ : StripeBatchParams).limit = 100)) ∧
    mpohodaRead "Activities" 60 1 =
      .error (if "Activities" ∈ mpohodaObjects then .validation
        else .objectNotFound) ∧
    ((50 : Nat) ≤ 50 ∧ (50 < 70 → (50 : Nat) = 50)) :=
  ⟨page_size_le_api_maximum.1 150 (by omega),
   page_size_le_api_maximum.2.1 (fun _ => Json.obj []) 200 1 ⟨100, none⟩
     (List.mem_singleton.mpr rfl),
   page_size_le_api_maximum.2.2.1 "Activities" 60 1 (by omega),
   page_size_le_api_maximum.2.2.2 (fun _ => .ok (Json.obj [])) 70 1 50
     (by simp [mpohodaReadBatchedSizes, mpohodaReadBatchedPageSizes,
       mpohodaMaxPageSize])⟩

/-- C9: `list_objects` returns a fresh copy — mutating the returned list
leaves the driver's supported-objects list unchanged, `get_fields`'s
membership check still sees the original list, and a subsequent
`list_objects` call still returns the original value. -/
theorem list_objects_returns_fresh_copy (h : PyListHeap) (d : DriverState)
    (hvalid : d.supportedRef < h.next) (v : List String) :
    (mutatedHeap h d v).store d.supportedRef = h.store d.supportedRef ∧
    stripeGetFieldsSees (mutatedHeap h d v) d = h.store d.supportedRef ∧
    (stripeListObjects (mutatedHeap h d v) d).1.store
        (stripeListObjects (mutatedHeap h d v) d).2 =
      h.store d.supportedRef := by
  have hne : d.supportedRef ≠ h.next := by omega
  refine ⟨?_, ?_, ?_⟩ <;>
    simp [mutatedHeap, stripeListObjects, stripeGetFieldsSees, heapAlloc,
      heapWrite, hne]

/-- C9 witness: on a one-reference heap holding `["customer"]`, clearing
the list returned by `list_objects` leaves all three reads equal to
`["customer"]`. -/
theorem list_objects_returns_fresh_copy_witness :
    (mutatedHeap ⟨fun _ => ["customer"], 1⟩ ⟨0⟩ []).store 0 =
      (fun _ => ["customer"] : Nat → List String) 0 ∧
    stripeGetFieldsSees (mutatedHeap ⟨fun _ => ["customer"], 1⟩ ⟨0⟩ []) ⟨0⟩ =
      (fun _ => ["customer"] : Nat → List String) 0 ∧
    (stripeListObjects
        (mutatedHeap ⟨fun _ => ["customer"], 1⟩ ⟨0⟩ []) ⟨0⟩).1.store
        (stripeListObjects
          (mutatedHeap ⟨fun _ => ["customer"], 1⟩ ⟨0⟩ []) ⟨0⟩).2 =
      (fun _ => ["customer"] : Nat → List String) 0 :=
  list_objects_returns_fresh_copy ⟨fun _ => ["customer"], 1⟩ ⟨0⟩
    (by simp) []

lemma pyLowerChar_fixed_on_lower :
    ∀ p ∈ upperToLowerPairs, pyLowerChar p.2 = p.2 := by decide

lemma pyLowerChar_idem (c : Char) :
    pyLowerChar (pyLowerChar c) = pyLowerChar c := by
  cases hf : upperToLowerPairs.find? (fun p => p.1 == c) with
  | none =>
      have h1 : pyLowerChar c = c := by simp [pyLowerChar, hf]
      rw [h1, h1]
  | some p =>
      have hmem : p ∈ upperToLowerPairs := List.mem_of_find?_eq_some hf
      have h1 : pyLowerChar c = p.2 := by simp [pyLowerChar, hf]
      rw [h1]
      exact pyLowerChar_fixed_on_lower p hmem

lemma pyLower_idem (s : String) : pyLower (pyLower s) = pyLower s := by
  unfold pyLower
  apply congrArg
  show (s.data.map pyLowerChar).map pyLowerChar = s.data.map pyLowerChar
  rw [List.map_map]
  exact List.map_congr_left (fun c _ => pyLowerChar_idem c)

/-- C10: `get_fields` is case-insensitive — `get_fields(s)` and
`get_fields(s.lower())` agree for every string (either both raise
`ObjectNotFoundError` or both return equal schema dictionaries), and for
every supported object name the returned schema is non-empty and
contains the key `"id"`. -/
theorem get_fields_case_insensitive :
    (∀ s : String, stripeGetFields s = stripeGetFields (pyLower s)) ∧
    (∀ name ∈ stripeSupportedObjects,
      stripeGetFields name = .ok (stripeFieldsFor name) ∧
      stripeFieldsFor name ≠ [] ∧
      "id" ∈ (stripeFieldsFor name).map Prod.fst) := by
  constructor
  · intro s
    simp [stripeGetFields, pyLower_idem]
  · decide

/-- C10 witness: `get_fields("Customer")` agrees with
`get_fields("customer")`, whose schema is non-empty and has an `"id"`
key. -/
theorem get_fields_case_insensitive_witness :
    stripeGetFields "Customer" = stripeGetFields (pyLower "Customer") ∧
    (stripeGetFields "customer" = .ok (stripeFieldsFor "customer") ∧
      stripeFieldsFor "customer" ≠ [] ∧
      "id" ∈ (stripeFieldsFor "customer").map Prod.fst) :=
  ⟨get_fields_case_insensitive.1 "Customer",
   get_fields_case_insensitive.2 "customer" (by decide)⟩

